import Mathlib

/-!
Verification of the MindAid conversational triage application.

This file shallowly embeds the live chat handler of `src/mindaid/main.py`
(the `/get` endpoint, the only chat route mounted on the FastAPI app), the
`/counsel/chat` handler of `src/mindaid/counseling.py`, the cookie-based
`get_current_user` of `src/mindaid/auth.py`, and the severity function
`calculate_anxiety_severity` of `src/mindaid/diagnosis.py`.

External dependencies (the BERT disorder classifier, the RAG counseling
chain, and the SQLite connection) are modelled as an `Ext` record of
fallible oracles returning `Except`; attempted database writes are logged
as an explicit effect trace so that persistence can be reasoned about.
Python's in-place mutation of the per-user session dictionary is modelled
by threading the session record through each handler, with mutations that
happen before a raising call preserved (the session is returned even on the
error path, as in Python where the dict is mutated in place).
-/

namespace MindAid

/-- The four class labels of `ml_models.predict_disorder`
(`class_labels = ["Addiction", "Anxiety", "Depression", "PTSD"]`). -/
inductive Disorder where
  | Addiction
  | Anxiety
  | Depression
  | PTSD
deriving DecidableEq

/-- The label string for a disorder, as produced by `predict_disorder`. -/
def disorderName : Disorder → String
  | Disorder.Addiction => "Addiction"
  | Disorder.Anxiety => "Anxiety"
  | Disorder.Depression => "Depression"
  | Disorder.PTSD => "PTSD"

/-- One observable external interaction of a handler: the classifier call
(`predict_disorder(...)`) or one of the SQL `UPDATE users SET ...` writes.
All writes target the requesting user's row (`WHERE username = ?`). -/
inductive Effect where
  | predictCall : String → Effect
  | dbDisorder : String → Effect
  | dbSeverity : String → Effect
  | dbHistory : String → Effect
deriving DecidableEq

/-- Whether an effect is an invocation of the external disorder classifier. -/
def Effect.isPredictCall : Effect → Bool
  | Effect.predictCall _ => true
  | _ => false

/-- Whether an effect is a severity write (`UPDATE users SET severity = ?`). -/
def Effect.isSeverityWrite : Effect → Bool
  | Effect.dbSeverity _ => true
  | _ => false

/-- The external services and I/O a request handler can invoke.  Each
operation may fail (raise, in Python); the error payload is the exception
message.  `dbReadHistory` models `SELECT history FROM users WHERE username = ?`
followed by `result[0] if result and result[0] else ""` coalescing: `none`
stands for a missing row or an empty/NULL column. -/
structure Ext where
  predict : String → Except String Disorder
  counsel : String → Except String String
  dbWrite : Effect → Except String Unit
  dbReadHistory : Except String (Option String)

/-- An environment in which every external operation raises with payload `e`. -/
def extFail (e : String) : Ext :=
  { predict := fun _ => Except.error e
    counsel := fun _ => Except.error e
    dbWrite := fun _ => Except.error e
    dbReadHistory := Except.error e }

/-- An environment in which every external operation succeeds: the classifier
computes `f`, the counseling chain computes `g`, writes succeed, and the
stored history row is absent. -/
def pureExt (f : String → Disorder) (g : String → String) : Ext :=
  { predict := fun t => Except.ok (f t)
    counsel := fun m => Except.ok (g m)
    dbWrite := fun _ => Except.ok ()
    dbReadHistory := Except.ok none }

/-- The per-username entry of `user_sessions` in `main.py`:
`InDiagnosis`, `InCounselor`, `total`, `userScore`, `userText_diagnosis`,
`predicted_class`. -/
structure Session where
  inDiagnosis : Bool
  inCounselor : Bool
  total : Int
  userScore : Int
  userTextDiagnosis : String
  predictedClass : Option Disorder
deriving DecidableEq

/-- The session installed by the `/diagnosis` page handler in `main.py`
(`total = 1`, `userScore = 0`, `userText_diagnosis = " "`). -/
def diagnosisPageSession : Session :=
  { inDiagnosis := true, inCounselor := false, total := 1, userScore := 0
    userTextDiagnosis := " ", predictedClass := none }

/-- The session installed by the `/counsel` page handler in `main.py`. -/
def counselPageSession : Session :=
  { inDiagnosis := false, inCounselor := true, total := 0, userScore := 0
    userTextDiagnosis := "", predictedClass := none }

/-- The session `get_response` creates when the username has no entry yet. -/
def initSession : Session :=
  { inDiagnosis := false, inCounselor := false, total := 0, userScore := 0
    userTextDiagnosis := "", predictedClass := none }

/-- The tokens accepted as Likert answers: `msg in ['0', '1', '2', '3']`. -/
def likertTokens : List String := ["0", "1", "2", "3"]

/-- The numeric value `int(msg)` of a Likert token (only used under the
`msg in ['0', '1', '2', '3']` guard, exactly as in the source). -/
def likertVal (msg : String) : Int :=
  if msg = "0" then 0
  else if msg = "1" then 1
  else if msg = "2" then 2
  else if msg = "3" then 3
  else 0

/-- Python's `str.lower()` restricted to ASCII, which covers every token the
handler compares lowered strings against. -/
def pyLower (s : String) : String := String.mk (s.data.map Char.toLower)

/-- The test `msg.lower() in ["yes", "yES", "yEs", "yeS", "YeS", "YEs"]`
used by the PTSD questionnaire in `main.py`. -/
def isYesToken (msg : String) : Bool :=
  ["yes", "yES", "yEs", "yeS", "YeS", "YEs"].contains (pyLower msg)

/-- The test `msg.lower() in ["no", "nO"]` used by the PTSD questionnaire. -/
def isNoToken (msg : String) : Bool :=
  ["no", "nO"].contains (pyLower msg)

/-- Anxiety severity thresholds of the `/get` handler
(`main.py`, completion branch at `total == 10`). -/
def anxSeverity (score : Int) : String :=
  if 0 ≤ score ∧ score ≤ 4 then "Minimal"
  else if 5 ≤ score ∧ score ≤ 9 then "Mild"
  else if 10 ≤ score ∧ score ≤ 14 then "Moderate"
  else "Severe"

/-- The completion message the `/get` handler returns for an Anxiety run. -/
def anxMessage (score : Int) : String :=
  if 0 ≤ score ∧ score ≤ 4 then
    "The Severity of your Anxiety Disorder is Minimal.<br>You can refer to professional help or You can also try our Anxiety Health Counsellor"
  else if 5 ≤ score ∧ score ≤ 9 then
    "The Severity of your Anxiety Disorder is Mild.<br>You can refer to professional help or You can also try our Anxiety Health Counsellor"
  else if 10 ≤ score ∧ score ≤ 14 then
    "The Severity of your Anxiety Disorder is Moderate.<br>I recommend taking professional help. Along with that You can also try our Anxiety Health Counsellor"
  else
    "The Severity of your Anxiety Disorder is Severe.<br>You can try our Anxiety Health Counsellor, but I strongly recommend taking professional help"

/-- Depression severity thresholds of the `/get` handler (`total == 12`). -/
def depSeverity (score : Int) : String :=
  if 0 ≤ score ∧ score ≤ 4 then "Minimal"
  else if 5 ≤ score ∧ score ≤ 9 then "Mild"
  else if 10 ≤ score ∧ score ≤ 14 then "Moderate"
  else if 15 ≤ score ∧ score ≤ 19 then "Moderately Severe"
  else "Severe"

/-- The completion message the `/get` handler returns for a Depression run. -/
def depMessage (score : Int) : String :=
  if 0 ≤ score ∧ score ≤ 4 then
    "The Severity of your Depression Disorder is Minimal.<br>You can refer to professional help or You can also try our Depression Health Counsellor"
  else if 5 ≤ score ∧ score ≤ 9 then
    "The Severity of your Depression Disorder is Mild.<br>You can refer to professional help or You can also try our Depression Health Counsellor"
  else if 10 ≤ score ∧ score ≤ 14 then
    "The Severity of your Depression Disorder is Moderate.<br>I recommend taking professional help. Along with that You can also try our Depression Health Counsellor"
  else if 15 ≤ score ∧ score ≤ 19 then
    "The Severity of your Depression Disorder is Moderately Severe.<br>You can try our Depression Health Counsellor, but I strongly recommend taking professional help"
  else
    "The Severity of your Depression Disorder is Quite Severe.<br>I strongly recommend taking professional help however you can also try our Depression Health Counsellor"

/-- Addiction severity thresholds of the `/get` handler (`total == 13`). -/
def addSeverity (score : Int) : String :=
  if 0 ≤ score ∧ score ≤ 6 then "Mild"
  else if 7 ≤ score ∧ score ≤ 15 then "Moderate"
  else if 16 ≤ score ∧ score ≤ 24 then "Mildly Severe"
  else "Severe"

/-- The completion message the `/get` handler returns for an Addiction run. -/
def addMessage (score : Int) : String :=
  if 0 ≤ score ∧ score ≤ 6 then
    "The Severity of your Addiction Disorder is Mild.<br>You can refer to professional help or You can also try our Addiction Health Counsellor"
  else if 7 ≤ score ∧ score ≤ 15 then
    "The Severity of your Addiction Disorder is Moderate.<br>You can refer to professional help or You can also try our Addiction Health Counsellor"
  else if 16 ≤ score ∧ score ≤ 24 then
    "The Severity of your Addiction Disorder is Mildly Severe.<br>I recommend taking professional help. Along with that You can also try our Addiction Health Counsellor"
  else
    "The Severity of your Addiction Disorder is Severe.<br>You can try our Addiction Health Counsellor, but I strongly recommend taking professional help"

/-- PTSD severity of the `/get` handler (`total == 9` completion branch,
`0 <= userScore < 3`). -/
def ptsdSeverity (score : Int) : String :=
  if 0 ≤ score ∧ score < 3 then "Mild" else "Moderate/Severe"

/-- The completion message the `/get` handler returns for a PTSD run. -/
def ptsdMessage (score : Int) : String :=
  if 0 ≤ score ∧ score < 3 then
    "The Severity of your PTSD Disorder is Mild.<br>You can refer to professional help or You can also try our PTSD Health Counsellor"
  else
    "The Severity of your PTSD Disorder is Moderate/Severe.<br>You can try our PTSD Health Counsellor, but I strongly recommend taking professional help"

/-- `calculate_anxiety_severity` of `src/mindaid/diagnosis.py` (GAD-7). -/
def calculate_anxiety_severity (score : Int) : String :=
  if score ≤ 4 then "Minimal"
  else if score ≤ 9 then "Mild"
  else if score ≤ 14 then "Moderate"
  else "Severe"

/-- The message returned by the `/get` handler whenever the diagnosis branch
falls through its step dispatch (`main.py` line 437). -/
def thankYouMsg : String :=
  "Thank you for using our website. Refresh the page for another diagnosis"

/-- The re-prompt for an out-of-range answer on a Likert questionnaire. -/
def likertRepromptMsg : String := "Please Provide Answers in Required Format !"

/-- The re-prompt for a non-yes/no answer on the PTSD questionnaire. -/
def ptsdRepromptMsg : String := "Please Provide Answer in Required Format"

/-- The early-exit message of the PTSD questionnaire at `total == 4`. -/
def ptsdNoTraumaMsg : String :=
  "PTSDs are generally caused due to a traumatic event. I would recommend you to consult our PTSD Mental Health Counsellor or Consider taking Professional Help."

/-- The questionnaire intro message the `/get` handler returns right after
classification at `total == 3` (one long string per disorder, from the
source, `<br>` markup and typos included). -/
def introMsg : Disorder → String
  | Disorder.Anxiety =>
    "You have: " ++ "Anxiety" ++ "<br>" ++ "Now could please answer a few symptoms related questions, to help me diagnose the severity of you disorder? <br> Answer 0 : For Not At All <br> Answer 1: If several days <br> Answer 2: If More than half the days <br> Answer 3: If Nearly every day <br> <br>  Feeling nervous, anxious, or on edge ? <br><br> NOTE: Please provide Numerical Input !"
  | Disorder.PTSD =>
    "You have: " ++ "PTSD" ++ "<br>" ++ "Now could please answer a few symptoms related questions, to help me diagnose the severity of you disorder? <br> NOTE: Please Answer in \x27yes\x27 or \x27no\x27 ! <br><br> Sometimes things happen to people that are unusually or especially frightening, horrible, or traumatic. <br> For example: <br> - A serious accident or fire <br> - A physical or sexual assualt or abuse <br> - Seeing someone getting killed or get seriously injured <br> - Having a loved one die through homicide or sucide <br><br> Have you ever experienced this kind of event? "
  | Disorder.Depression =>
    "You have: " ++ "Depression" ++ "<br>" ++ "Now could please answer a few symptoms related questions, to help me diagnose the severity of you disorder? <br> Answer 0 : For Not At All <br> Answer 1: If several days <br> Answer 2: If More than half the days <br> Answer 3: If Nearly every day <br> <br>Little interest or pleasure in doing things ? <br><br> NOTE: Please provide Numerical Input !"
  | Disorder.Addiction =>
    "You have: " ++ "Addiction" ++ "<br>" ++ "Now could please answer a few symptoms related questions, to help me diagnose the severity of you disorder? <br> Answer 0 : For Not At All <br> Answer 1: For Sometimes <br> Answer 2: For Often <br> Answer 3: For Always <br> <br>  How often do you have strong urges or cravings to use the substance or engage in the behavior? <br><br> NOTE: Please provide Numerical input !"

/-- The Anxiety (GAD-7) sub-branch of the `total >= 4` questionnaire
dispatch of `get_response` in `main.py`. -/
def anxietyQuestionnaireStep (ext : Ext) (s : Session) (msg : String) :
    Except String String × Session × List Effect :=
  if likertTokens.contains msg then
        if s.total = 4 then
          (Except.ok "Not being able to stop or control worrying",
           { s with userScore := s.userScore + likertVal msg, total := s.total + 1 }, [])
        else if s.total = 5 then
          (Except.ok "Worrying too much about different things",
           { s with userScore := s.userScore + likertVal msg, total := s.total + 1 }, [])
        else if s.total = 6 then
          (Except.ok "Trouble relaxing",
           { s with userScore := s.userScore + likertVal msg, total := s.total + 1 }, [])
        else if s.total = 7 then
          (Except.ok "Being so restless that it is hard to sit still",
           { s with userScore := s.userScore + likertVal msg, total := s.total + 1 }, [])
        else if s.total = 8 then
          (Except.ok "Becoming easily annoyed or irritable",
           { s with userScore := s.userScore + likertVal msg, total := s.total + 1 }, [])
        else if s.total = 9 then
          (Except.ok "Feeling afraid, as if something awful might happen",
           { s with userScore := s.userScore + likertVal msg, total := s.total + 1 }, [])
        else if s.total = 10 then
          let score := s.userScore + likertVal msg
          ((ext.dbWrite (Effect.dbSeverity (anxSeverity score))).map fun _ => anxMessage score,
           { s with userScore := score, total := -1 }, [Effect.dbSeverity (anxSeverity score)])
        else (Except.ok thankYouMsg, s, [])
      else (Except.ok likertRepromptMsg, s, [])

/-- The Depression (PHQ-9) sub-branch of the questionnaire dispatch. -/
def depressionQuestionnaireStep (ext : Ext) (s : Session) (msg : String) :
    Except String String × Session × List Effect :=
  if likertTokens.contains msg then
        if s.total = 4 then
          (Except.ok "Feeling down, depressed, or hopeless",
           { s with userScore := s.userScore + likertVal msg, total := s.total + 1 }, [])
        else if s.total = 5 then
          (Except.ok "Trouble falling or staying asleep, or sleeping too much",
           { s with userScore := s.userScore + likertVal msg, total := s.total + 1 }, [])
        else if s.total = 6 then
          (Except.ok "Feeling tired or having little energy",
           { s with userScore := s.userScore + likertVal msg, total := s.total + 1 }, [])
        else if s.total = 7 then
          (Except.ok "Poor appetite or overeating",
           { s with userScore := s.userScore + likertVal msg, total := s.total + 1 }, [])
        else if s.total = 8 then
          (Except.ok "Feeling bad about yourself or that you are a failure or have let yourself or your family down",
           { s with userScore := s.userScore + likertVal msg, total := s.total + 1 }, [])
        else if s.total = 9 then
          (Except.ok "Trouble concentrating on things, such as reading the newspaper or watching television",
           { s with userScore := s.userScore + likertVal msg, total := s.total + 1 }, [])
        else if s.total = 10 then
          (Except.ok "Moving or speaking so slowly that other people could not have noticed. Or the opposite being so figety or restless that you have been moving around a lot more than usual",
           { s with userScore := s.userScore + likertVal msg, total := s.total + 1 }, [])
        else if s.total = 11 then
          (Except.ok "Thoughts that you would be better off dead, or of hurting yourself",
           { s with userScore := s.userScore + likertVal msg, total := s.total + 1 }, [])
        else if s.total = 12 then
          let score := s.userScore + likertVal msg
          ((ext.dbWrite (Effect.dbSeverity (depSeverity score))).map fun _ => depMessage score,
           { s with userScore := score, total := -1 }, [Effect.dbSeverity (depSeverity score)])
        else (Except.ok thankYouMsg, s, [])
      else (Except.ok likertRepromptMsg, s, [])

/-- The PTSD (PC-PTSD yes/no) sub-branch of the questionnaire dispatch. -/
def ptsdQuestionnaireStep (ext : Ext) (s : Session) (msg : String) :
    Except String String × Session × List Effect :=
  if s.total = 4 then
        if isNoToken msg then
          ((ext.dbWrite (Effect.dbSeverity "Minimal")).map fun _ => ptsdNoTraumaMsg,
           { s with total := 15 }, [Effect.dbSeverity "Minimal"])
        else if isYesToken msg then
          (Except.ok "Had nightmares about it or thought about it when you did not want to?",
           { s with total := s.total + 1 }, [])
        else (Except.ok ptsdRepromptMsg, s, [])
      else if s.total = 5 then
        if isYesToken msg then
          (Except.ok "Tried hard not to think about it or went out of your way to avoid situations that reminded you of it?",
           { s with userScore := s.userScore + 1, total := s.total + 1 }, [])
        else if isNoToken msg then
          (Except.ok "Tried hard not to think about it or went out of your way to avoid situations that reminded you of it?",
           { s with total := s.total + 1 }, [])
        else (Except.ok ptsdRepromptMsg, s, [])
      else if s.total = 6 then
        if isYesToken msg then
          (Except.ok "Were constantly on guard, watchful or easily startled?",
           { s with userScore := s.userScore + 1, total := s.total + 1 }, [])
        else if isNoToken msg then
          (Except.ok "Were constantly on guard, watchful or easily startled?",
           { s with total := s.total + 1 }, [])
        else (Except.ok ptsdRepromptMsg, s, [])
      else if s.total = 7 then
        if isYesToken msg then
          (Except.ok "Felt numb or detached from others, activities, or your surroundings?",
           { s with userScore := s.userScore + 1, total := s.total + 1 }, [])
        else if isNoToken msg then
          (Except.ok "Felt numb or detached from others, activities, or your surroundings?",
           { s with total := s.total + 1 }, [])
        else (Except.ok ptsdRepromptMsg, s, [])
      else if s.total = 8 then
        if isYesToken msg then
          (Except.ok "Felt guilty or unable to stop blaming yourself or others for the event or any problems the event may have caused",
           { s with userScore := s.userScore + 1, total := s.total + 1 }, [])
        else if isNoToken msg then
          (Except.ok "Felt guilty or unable to stop blaming yourself or others for the event or any problems the event may have caused",
           { s with total := s.total + 1 }, [])
        else (Except.ok ptsdRepromptMsg, s, [])
      else if s.total = 9 then
        if isYesToken msg then
          let score := s.userScore + 1
          ((ext.dbWrite (Effect.dbSeverity (ptsdSeverity score))).map fun _ => ptsdMessage score,
           { s with userScore := score, total := -1 }, [Effect.dbSeverity (ptsdSeverity score)])
        else if isNoToken msg then
          ((ext.dbWrite (Effect.dbSeverity (ptsdSeverity s.userScore))).map fun _ => ptsdMessage s.userScore,
           { s with total := -1 }, [Effect.dbSeverity (ptsdSeverity s.userScore)])
        else (Except.ok ptsdRepromptMsg, s, [])
      else (Except.ok thankYouMsg, s, [])

/-- The Addiction sub-branch of the questionnaire dispatch. -/
def addictionQuestionnaireStep (ext : Ext) (s : Session) (msg : String) :
    Except String String × Session × List Effect :=
  if likertTokens.contains msg then
        if s.total = 4 then
          (Except.ok "How often do you find it difficult to control or stop using the substance or engaging in the behavior?",
           { s with userScore := s.userScore + likertVal msg, total := s.total + 1 }, [])
        else if s.total = 5 then
          (Except.ok "How often do you need to use more of the substance or engage more in the behavior to achieve the same effect?",
           { s with userScore := s.userScore + likertVal msg, total := s.total + 1 }, [])
        else if s.total = 6 then
          (Except.ok "How often do you experience physical or emotional withdrawal symptoms when you try to stop using the substance or engaging in the behavior?",
           { s with userScore := s.userScore + likertVal msg, total := s.total + 1 }, [])
        else if s.total = 7 then
          (Except.ok "How often do you neglect your responsibilities at work, school, or home due to your use of the substance or engagement in the behavior?",
           { s with userScore := s.userScore + likertVal msg, total := s.total + 1 }, [])
        else if s.total = 8 then
          (Except.ok "How often do you continue to use the substance or engage in the behavior despite knowing it causes problems in your life?",
           { s with userScore := s.userScore + likertVal msg, total := s.total + 1 }, [])
        else if s.total = 9 then
          (Except.ok "How often do you spend a lot of time obtaining, using, or recovering from the substance or behavior?",
           { s with userScore := s.userScore + likertVal msg, total := s.total + 1 }, [])
        else if s.total = 10 then
          (Except.ok "How often do you lose interest in other activities or hobbies because of your use of the substance or engagement in the behavior?",
           { s with userScore := s.userScore + likertVal msg, total := s.total + 1 }, [])
        else if s.total = 11 then
          (Except.ok "How often do you continue to use the substance or engage in the behavior in situations where it is physically dangerous (e.g., driving, operating machinery)?",
           { s with userScore := s.userScore + likertVal msg, total := s.total + 1 }, [])
        else if s.total = 12 then
          (Except.ok "How often do you feel guilty or ashamed about your use of the substance or engagement in the behavior?",
           { s with userScore := s.userScore + likertVal msg, total := s.total + 1 }, [])
        else if s.total = 13 then
          let score := s.userScore + likertVal msg
          ((ext.dbWrite (Effect.dbSeverity (addSeverity score))).map fun _ => addMessage score,
           { s with userScore := score, total := -1 }, [Effect.dbSeverity (addSeverity score)])
        else (Except.ok thankYouMsg, s, [])
      else (Except.ok likertRepromptMsg, s, [])

/-- The `total >= 4` dispatch of `get_response` on the predicted disorder
(`predicted_class` of the session); with no prediction recorded, control
falls through to the thank-you return at the end of the diagnosis branch. -/
def questionnaireStep (ext : Ext) (s : Session) (msg : String) :
    Except String String × Session × List Effect :=
  match s.predictedClass with
  | some Disorder.Anxiety => anxietyQuestionnaireStep ext s msg
  | some Disorder.Depression => depressionQuestionnaireStep ext s msg
  | some Disorder.PTSD => ptsdQuestionnaireStep ext s msg
  | some Disorder.Addiction => addictionQuestionnaireStep ext s msg
  | none => (Except.ok thankYouMsg, s, [])

/-- One turn of the diagnosis workflow of the `/get` handler in `main.py`
(the `session['InDiagnosis'] and not session['InCounselor']` branch of
`get_response`).  Returns the reply (as `Except`: an error is the raised
exception before the outer `try` boundary converts it), the mutated session,
and the trace of attempted external interactions.  Session mutations
performed before a raising call are preserved, as in the Python source where
the session dictionary is mutated in place. -/
def stepDiagE (ext : Ext) (s : Session) (msg : String) :
    Except String String × Session × List Effect :=
  if s.total = 1 then
    (Except.ok "Can you share any recent events or experiences that might have triggered these feelings or symptoms?",
     { s with total := s.total + 1, userTextDiagnosis := s.userTextDiagnosis ++ msg }, [])
  else if s.total = 2 then
    (Except.ok "Have you experienced any significant traumas in the past, or do you have any habits or behaviors that you think might be affecting your mental health?",
     { s with total := s.total + 1, userTextDiagnosis := s.userTextDiagnosis ++ " " ++ msg }, [])
  else if s.total = 3 then
    let text := s.userTextDiagnosis ++ " " ++ msg
    let s1 : Session := { s with total := s.total + 1, userTextDiagnosis := text }
    match ext.predict text with
    | Except.error e => (Except.error e, s1, [Effect.predictCall text])
    | Except.ok d =>
      let s2 : Session := { s1 with predictedClass := some d }
      ((ext.dbWrite (Effect.dbDisorder (disorderName d))).map fun _ => introMsg d,
       s2, [Effect.predictCall text, Effect.dbDisorder (disorderName d)])
  else if 4 ≤ s.total then questionnaireStep ext s msg
  else (Except.ok thankYouMsg, s, [])

/-- The LangChain message store of `ml_models.py` (`store = {}`), keyed by
session id; each entry is the list of message contents in order. -/
def CStore := String → Option (List String)

/-- The generic failure message of the `/get` handler's `except` boundary. -/
def troubleMsg : String :=
  "I\x27m sorry, I\x27m having trouble responding right now. Please try again later."

/-- The `try`/`except` boundary of `get_response`: a raised exception is
converted into the generic failure message. -/
def handleReply : Except String String → String
  | Except.ok r => r
  | Except.error _ => troubleMsg

/-- The `f"User: {msg} | AI: {ai_response}"` history entry format. -/
def counselEntry (userInput aiResponse : String) : String :=
  "User: " ++ userInput ++ " | AI: " ++ aiResponse

/-- The `/get` handler `get_response` of `main.py`, for a resolved username
and current session: diagnosis branch, counseling branch, or the fallback
prompt.  Returns the reply string (after the `try`/`except` boundary), the
mutated session, the LangChain store, and the trace of external writes.  In
the counseling branch, a successful `get_counseling_response` call appends
the user message and the AI answer to `store[session_id]` (creating the
entry), after which the `if session_id in store` test selects the
transcript-join path. -/
def getResponseE (ext : Ext) (store : CStore) (s : Session) (username msg : String) :
    String × Session × CStore × List Effect :=
  if s.inDiagnosis && !s.inCounselor then
    let r := stepDiagE ext s msg
    (handleReply r.1, r.2.1, store, r.2.2)
  else if !s.inDiagnosis && s.inCounselor then
    let sid := "counsel_" ++ username
    match ext.counsel msg with
    | Except.error e => (handleReply (Except.error e), s, store, [])
    | Except.ok ai =>
      let msgs := (store sid).getD [] ++ [msg, ai]
      let store' : CStore := fun k => if k = sid then some msgs else store k
      let historyE : Except String String :=
        match store' sid with
        | some ms => Except.ok (String.intercalate " | " ms)
        | none =>
          match ext.dbReadHistory with
          | Except.error e => Except.error e
          | Except.ok row =>
            let current := row.getD ""
            let entry := counselEntry msg ai
            Except.ok (if current ≠ "" then current ++ " | " ++ entry else entry)
      match historyE with
      | Except.error e => (handleReply (Except.error e), s, store', [])
      | Except.ok h =>
        (handleReply ((ext.dbWrite (Effect.dbHistory h)).map fun _ => ai),
         s, store', [Effect.dbHistory h])
  else ("Please visit the diagnosis or counseling page to start a session.", s, store, [])

/-- The `/counsel/chat` handler `counsel_chat` of `counseling.py`: reply from
the counseling chain, read the stored history, append the
`User: ... | AI: ...` entry with a `" | "` separator when the history is
nonempty, and write it back.  Any raised exception is converted at the
boundary into `HTTPException(500, "Internal server error")`, modelled as the
`Except.error` detail string. -/
def counsel_chat (ext : Ext) (store : CStore) (userInput sessionId : String) :
    Except String String × CStore × List Effect :=
  match ext.counsel userInput with
  | Except.error _ => (Except.error "Internal server error", store, [])
  | Except.ok ai =>
    let store' : CStore := fun k =>
      if k = sessionId then some ((store sessionId).getD [] ++ [userInput, ai]) else store k
    match ext.dbReadHistory with
    | Except.error _ => (Except.error "Internal server error", store', [])
    | Except.ok row =>
      let current := row.getD ""
      let entry := counselEntry userInput ai
      let updated := if current ≠ "" then current ++ " | " ++ entry else entry
      match ext.dbWrite (Effect.dbHistory updated) with
      | Except.error _ => (Except.error "Internal server error", store', [Effect.dbHistory updated])
      | Except.ok _ => (Except.ok ai, store', [Effect.dbHistory updated])

/-- The outcome of `json.loads(session_cookie)` followed by the
`session_data.get("username")` lookup in `auth.py`.  `jsonError` is a raised
`json.JSONDecodeError`; `notAnObject` is valid JSON that is not an object —
a cookie value such as `null`, `123` or `[1]` — on which calling
`.get("username")` raises an `AttributeError`; `noUsername` is an object
whose `username` entry is absent (`.get` returns `None`); `username u` is an
object carrying the string `u` (the falsy empty string included, checked
separately as in the source). -/
inductive DecodeOutcome where
  | jsonError
  | notAnObject
  | noUsername
  | username (u : String)

/-- How `get_current_user` fails: an `HTTPException(401, detail)` — which
the chat handlers catch and turn into the guest fallback — or an exception
its `except (json.JSONDecodeError, KeyError)` clause does not catch (the
`AttributeError` from `.get` on a non-object), which propagates out of the
endpoint. -/
inductive AuthFailure where
  | http (detail : String)
  | uncaught (exc : String)

/-- `get_current_user` of `auth.py`: no `session` cookie raises 401
`Not authenticated`; a cookie whose JSON fails to decode is answered with
401 `Invalid session`, as is a decoded object with a missing or falsy
`username`; but a cookie holding valid JSON that is not an object
makes `session_data.get("username")` raise an `AttributeError`, which the
`except (json.JSONDecodeError, KeyError)` clause does not catch, so it
escapes uncaught. -/
def get_current_user (decode : String → DecodeOutcome) (cookie : Option String) :
    Except AuthFailure String :=
  match cookie with
  | none => Except.error (AuthFailure.http "Not authenticated")
  | some raw =>
    match decode raw with
    | DecodeOutcome.jsonError => Except.error (AuthFailure.http "Invalid session")
    | DecodeOutcome.notAnObject => Except.error (AuthFailure.uncaught "AttributeError")
    | DecodeOutcome.noUsername => Except.error (AuthFailure.http "Invalid session")
    | DecodeOutcome.username u =>
      if u = "" then Except.error (AuthFailure.http "Invalid session") else Except.ok u

/-- The username resolution at each chat handler's boundary
(`try: username = get_current_user(request)` / `except HTTPException:
username = "guest"`): an `HTTPException` becomes the guest fallback, while
an uncaught exception escapes the handler (`Except.error`). -/
def currentUsernameOr (decode : String → DecodeOutcome) (cookie : Option String) :
    Except String String :=
  match get_current_user decode cookie with
  | Except.ok u => Except.ok u
  | Except.error (AuthFailure.http _) => Except.ok "guest"
  | Except.error (AuthFailure.uncaught e) => Except.error e

/-- The `/get` endpoint for a fixed username: fetch or create the
`user_sessions[username]` entry, run `get_response`, and store the mutated
session back under the same key. -/
def getHandlerUser (ext : Ext) (username : String) (sessions : String → Option Session)
    (store : CStore) (msg : String) :
    String × (String → Option Session) × CStore × List Effect :=
  let s := (sessions username).getD initSession
  let r := getResponseE ext store s username msg
  (r.1, fun k => if k = username then some r.2.1 else sessions k, r.2.2.1, r.2.2.2)

/-- The full `/get` endpoint: resolve the username from the session cookie
(`HTTPException` failures fall back to `"guest"`; an uncaught decode
exception escapes and the request fails with a server error), then handle
the message. -/
def getHandler (ext : Ext) (decode : String → DecodeOutcome) (cookie : Option String)
    (sessions : String → Option Session) (store : CStore) (msg : String) :
    Except String (String × (String → Option Session) × CStore × List Effect) :=
  match currentUsernameOr decode cookie with
  | Except.error e => Except.error e
  | Except.ok u => Except.ok (getHandlerUser ext u sessions store msg)

/-- Iterate the diagnosis branch of the `/get` handler over a list of user
messages, accumulating the effect trace. -/
def runDiag (ext : Ext) : Session → List String → Session × List Effect
  | s, [] => (s, [])
  | s, m :: ms =>
    let r := stepDiagE ext s m
    let rest := runDiag ext r.2.1 ms
    (rest.1, r.2.2 ++ rest.2)

/-- The number of scored Likert answers each disorder's questionnaire
consumes in the `/get` handler (PTSD is yes/no-driven and handled apart). -/
def nQ : Disorder → Nat
  | Disorder.Anxiety => 7
  | Disorder.Depression => 9
  | Disorder.Addiction => 10
  | Disorder.PTSD => 0

/-- The severity function each Likert questionnaire applies on completion. -/
def likertSeverity : Disorder → Int → String
  | Disorder.Anxiety => anxSeverity
  | Disorder.Depression => depSeverity
  | Disorder.Addiction => addSeverity
  | Disorder.PTSD => ptsdSeverity

/-- The expected answer domain at a pending questionnaire item. -/
def validAnswer : Disorder → String → Bool
  | Disorder.PTSD, msg => isYesToken msg || isNoToken msg
  | _, msg => likertTokens.contains msg

/-- The re-prompt message returned for an answer outside the domain. -/
def repromptOf : Disorder → String
  | Disorder.PTSD => ptsdRepromptMsg
  | _ => likertRepromptMsg

/-- C1: for every completed Anxiety questionnaire the accumulated score is
mapped to a severity label by fixed thresholds — at most 4 is Minimal, 5 to 9
is Mild, 10 to 14 is Moderate, 15 and above is Severe; in particular a total
score of 6 yields Mild.  This holds both for `calculate_anxiety_severity` in
`diagnosis.py` and for the inline thresholds of the `/get` handler (whose
accumulated score is always nonnegative), and the completion step at
`total = 10` writes exactly that label for the final score. -/
theorem anxiety_severity_thresholds (score : Int) (ext : Ext) (store : CStore)
    (s : Session) (u msg : String) :
    (score ≤ 4 → calculate_anxiety_severity score = "Minimal") ∧
    (5 ≤ score → score ≤ 9 → calculate_anxiety_severity score = "Mild") ∧
    (10 ≤ score → score ≤ 14 → calculate_anxiety_severity score = "Moderate") ∧
    (15 ≤ score → calculate_anxiety_severity score = "Severe") ∧
    calculate_anxiety_severity 6 = "Mild" ∧
    (0 ≤ score →
      ((score ≤ 4 → anxSeverity score = "Minimal") ∧
       (5 ≤ score → score ≤ 9 → anxSeverity score = "Mild") ∧
       (10 ≤ score → score ≤ 14 → anxSeverity score = "Moderate") ∧
       (15 ≤ score → anxSeverity score = "Severe"))) ∧
    anxSeverity 6 = "Mild" ∧
    (s.inDiagnosis = true → s.inCounselor = false →
     s.predictedClass = some Disorder.Anxiety → s.total = 10 →
     likertTokens.contains msg = true →
      (getResponseE ext store s u msg).2.2.2 =
        [Effect.dbSeverity (anxSeverity (s.userScore + likertVal msg))] ∧
      (getResponseE ext store s u msg).2.1.total = -1) := by
  refine ⟨?_, ?_, ?_, ?_, by decide, ?_, by decide, ?_⟩
  · intro h
    unfold calculate_anxiety_severity
    rw [if_pos h]
  · intro h5 h9
    unfold calculate_anxiety_severity
    rw [if_neg (by omega), if_pos h9]
  · intro h10 h14
    unfold calculate_anxiety_severity
    rw [if_neg (by omega), if_neg (by omega), if_pos h14]
  · intro h15
    unfold calculate_anxiety_severity
    rw [if_neg (by omega), if_neg (by omega), if_neg (by omega)]
  · intro h0
    refine ⟨?_, ?_, ?_, ?_⟩
    · intro h
      unfold anxSeverity
      rw [if_pos ⟨h0, h⟩]
    · intro h5 h9
      unfold anxSeverity
      rw [if_neg (by omega), if_pos ⟨h5, h9⟩]
    · intro h10 h14
      unfold anxSeverity
      rw [if_neg (by omega), if_neg (by omega), if_pos ⟨h10, h14⟩]
    · intro h15
      unfold anxSeverity
      rw [if_neg (by omega), if_neg (by omega), if_neg (by omega)]
  · intro hd hc hp ht hm
    have hm' : msg ∈ likertTokens := by simpa using hm
    constructor
    · simp [getResponseE, stepDiagE, questionnaireStep, anxietyQuestionnaireStep, depressionQuestionnaireStep, ptsdQuestionnaireStep, addictionQuestionnaireStep, hd, hc, hp, ht, hm']
    · simp [getResponseE, stepDiagE, questionnaireStep, anxietyQuestionnaireStep, depressionQuestionnaireStep, ptsdQuestionnaireStep, addictionQuestionnaireStep, hd, hc, hp, ht, hm']

/-- Witness for C1 at score 6 and at a concrete completing Anxiety state
with prior score 4 and final answer 2. -/
theorem anxiety_severity_thresholds_witness :
    calculate_anxiety_severity 6 = "Mild" ∧
    (getResponseE (pureExt (fun _ => Disorder.Anxiety) (fun _ => "")) (fun _ => none)
      { inDiagnosis := true, inCounselor := false, total := 10, userScore := 4,
        userTextDiagnosis := "", predictedClass := some Disorder.Anxiety }
      "u" "2").2.2.2 = [Effect.dbSeverity "Mild"] := by
  have h := anxiety_severity_thresholds 6 (pureExt (fun _ => Disorder.Anxiety) (fun _ => ""))
    (fun _ => none)
    { inDiagnosis := true, inCounselor := false, total := 10, userScore := 4,
      userTextDiagnosis := "", predictedClass := some Disorder.Anxiety } "u" "2"
  refine ⟨h.2.2.2.2.1, ?_⟩
  rw [(h.2.2.2.2.2.2.2 rfl rfl rfl rfl (by decide)).1]
  decide

/-- C9: the terminal state is absorbing — once the `/get` diagnosis run has
set `total = -1`, every further message leaves the whole session (score,
predicted disorder, step counter) unchanged, performs no database write, and
returns the fixed thank-you message. -/
theorem terminal_state_absorbing (ext : Ext) (store : CStore) (s : Session) (u msg : String)
    (hd : s.inDiagnosis = true) (hc : s.inCounselor = false) (ht : s.total = -1) :
    getResponseE ext store s u msg = (thankYouMsg, s, store, []) := by
  simp [getResponseE, stepDiagE, questionnaireStep, anxietyQuestionnaireStep, depressionQuestionnaireStep, ptsdQuestionnaireStep, addictionQuestionnaireStep, handleReply, hd, hc, ht]

/-- Witness for C9 at a concrete completed session. -/
theorem terminal_state_absorbing_witness :
    getResponseE (pureExt (fun _ => Disorder.Anxiety) (fun _ => "")) (fun _ => none)
      { inDiagnosis := true, inCounselor := false, total := -1, userScore := 12,
        userTextDiagnosis := "t", predictedClass := some Disorder.Anxiety }
      "u" "2"
    = (thankYouMsg,
       { inDiagnosis := true, inCounselor := false, total := -1, userScore := 12,
         userTextDiagnosis := "t", predictedClass := some Disorder.Anxiety },
       (fun _ => none), []) :=
  terminal_state_absorbing (pureExt (fun _ => Disorder.Anxiety) (fun _ => "")) (fun _ => none)
    { inDiagnosis := true, inCounselor := false, total := -1, userScore := 12,
      userTextDiagnosis := "t", predictedClass := some Disorder.Anxiety }
    "u" "2" rfl rfl rfl

/-- C2: at every pending questionnaire item (`total ≥ 4`, and within the
yes/no item range 4..9 for PTSD), a message outside the expected answer
domain makes the `/get` handler return the re-prompt message and leave the
session — step counter, accumulated score, and predicted disorder — entirely
unchanged, with no external write. -/
theorem invalid_answer_reprompts (ext : Ext) (store : CStore) (s : Session)
    (u msg : String) (d : Disorder)
    (hd : s.inDiagnosis = true) (hc : s.inCounselor = false)
    (hp : s.predictedClass = some d) (h4 : 4 ≤ s.total)
    (hptsd : d = Disorder.PTSD → s.total ≤ 9)
    (hinv : validAnswer d msg = false) :
    getResponseE ext store s u msg = (repromptOf d, s, store, []) := by
  have h1 : ¬ s.total = 1 := by omega
  have h2 : ¬ s.total = 2 := by omega
  have h3 : ¬ s.total = 3 := by omega
  cases d with
  | Anxiety =>
    simp [validAnswer] at hinv
    simp [getResponseE, stepDiagE, questionnaireStep, anxietyQuestionnaireStep, depressionQuestionnaireStep, ptsdQuestionnaireStep, addictionQuestionnaireStep, handleReply, repromptOf, hd, hc, hp, h1, h2, h3, h4, hinv]
  | Depression =>
    simp [validAnswer] at hinv
    simp [getResponseE, stepDiagE, questionnaireStep, anxietyQuestionnaireStep, depressionQuestionnaireStep, ptsdQuestionnaireStep, addictionQuestionnaireStep, handleReply, repromptOf, hd, hc, hp, h1, h2, h3, h4, hinv]
  | Addiction =>
    simp [validAnswer] at hinv
    simp [getResponseE, stepDiagE, questionnaireStep, anxietyQuestionnaireStep, depressionQuestionnaireStep, ptsdQuestionnaireStep, addictionQuestionnaireStep, handleReply, repromptOf, hd, hc, hp, h1, h2, h3, h4, hinv]
  | PTSD =>
    simp [validAnswer] at hinv
    have hr := hptsd rfl
    have hcase : s.total = 4 ∨ s.total = 5 ∨ s.total = 6 ∨ s.total = 7 ∨
        s.total = 8 ∨ s.total = 9 := by omega
    rcases hcase with h | h | h | h | h | h <;>
      simp [getResponseE, stepDiagE, questionnaireStep, anxietyQuestionnaireStep, depressionQuestionnaireStep, ptsdQuestionnaireStep, addictionQuestionnaireStep, handleReply, repromptOf, hd, hc, hp, h,
        hinv.1, hinv.2]

/-- Witness for C2: a non-numeric token on the Anxiety questionnaire and a
non-yes/no token on the PTSD questionnaire both re-prompt. -/
theorem invalid_answer_reprompts_witness :
    getResponseE (pureExt (fun _ => Disorder.Anxiety) (fun _ => "")) (fun _ => none)
      { inDiagnosis := true, inCounselor := false, total := 6, userScore := 3,
        userTextDiagnosis := "t", predictedClass := some Disorder.Anxiety }
      "u" "abc"
    = (likertRepromptMsg,
       { inDiagnosis := true, inCounselor := false, total := 6, userScore := 3,
         userTextDiagnosis := "t", predictedClass := some Disorder.Anxiety },
       (fun _ => none), []) := by
  have h := invalid_answer_reprompts (pureExt (fun _ => Disorder.Anxiety) (fun _ => ""))
    (fun _ => none)
    { inDiagnosis := true, inCounselor := false, total := 6, userScore := 3,
      userTextDiagnosis := "t", predictedClass := some Disorder.Anxiety }
    "u" "abc" Disorder.Anxiety rfl rfl rfl (by decide)
    (fun hx => by cases hx) (by decide)
  simpa [repromptOf] using h

/-- C4: in a PTSD run, answering "no" to the trauma question at `total = 4`
immediately writes severity Minimal for the user, returns the early-exit
message rather than any further question, and moves the session to the
absorbing step 15, where every later message is answered with the thank-you
message and no state change or database write. -/
theorem ptsd_no_trauma_early_exit (ext : Ext) (store : CStore) (s : Session) (u msg : String)
    (hd : s.inDiagnosis = true) (hc : s.inCounselor = false)
    (ht : s.total = 4) (hp : s.predictedClass = some Disorder.PTSD)
    (hno : pyLower msg = "no")
    (hdb : ∀ w, ext.dbWrite w = Except.ok ()) :
    getResponseE ext store s u msg =
      (ptsdNoTraumaMsg, { s with total := 15 }, store, [Effect.dbSeverity "Minimal"]) ∧
    ∀ msg2, getResponseE ext store { s with total := 15 } u msg2 =
      (thankYouMsg, { s with total := 15 }, store, []) := by
  constructor
  · have hno' : isNoToken msg = true := by simp [isNoToken, hno]
    simp [getResponseE, stepDiagE, questionnaireStep, anxietyQuestionnaireStep, depressionQuestionnaireStep, ptsdQuestionnaireStep, addictionQuestionnaireStep, handleReply, Except.map, hd, hc, hp, ht, hno', hdb]
  · intro msg2
    simp [getResponseE, stepDiagE, questionnaireStep, anxietyQuestionnaireStep, depressionQuestionnaireStep, ptsdQuestionnaireStep, addictionQuestionnaireStep, handleReply, hd, hc, hp]

/-- Witness for C4 at a concrete PTSD session and the literal answer "no". -/
theorem ptsd_no_trauma_early_exit_witness :
    (getResponseE (pureExt (fun _ => Disorder.PTSD) (fun _ => "")) (fun _ => none)
      { inDiagnosis := true, inCounselor := false, total := 4, userScore := 0,
        userTextDiagnosis := "t", predictedClass := some Disorder.PTSD }
      "u" "no").2.2.2 = [Effect.dbSeverity "Minimal"] ∧
    (getResponseE (pureExt (fun _ => Disorder.PTSD) (fun _ => "")) (fun _ => none)
      { inDiagnosis := true, inCounselor := false, total := 4, userScore := 0,
        userTextDiagnosis := "t", predictedClass := some Disorder.PTSD }
      "u" "no").2.1.total = 15 := by
  have h := ptsd_no_trauma_early_exit (pureExt (fun _ => Disorder.PTSD) (fun _ => ""))
    (fun _ => none)
    { inDiagnosis := true, inCounselor := false, total := 4, userScore := 0,
      userTextDiagnosis := "t", predictedClass := some Disorder.PTSD }
    "u" "no" rfl rfl rfl rfl (by decide) (fun _ => rfl)
  constructor
  · rw [h.1]
  · rw [h.1]

/-- C6: after classification (`total ≥ 4`, disorder fixed) the `/get`
handler is a pure function of the session state and the message: its reply,
resulting session, store, and effect trace do not depend on the external
classifier or counseling service.  Two environments that agree on (or both
succeed at) the database write produce identical outcomes. -/
theorem questionnaire_deterministic (ext1 ext2 : Ext) (store : CStore) (s : Session)
    (u msg : String) (d : Disorder)
    (hd : s.inDiagnosis = true) (hc : s.inCounselor = false)
    (hp : s.predictedClass = some d) (h4 : 4 ≤ s.total) :
    (ext1.dbWrite = ext2.dbWrite →
      getResponseE ext1 store s u msg = getResponseE ext2 store s u msg) ∧
    ((∀ w, ext1.dbWrite w = Except.ok ()) → (∀ w, ext2.dbWrite w = Except.ok ()) →
      getResponseE ext1 store s u msg = getResponseE ext2 store s u msg) := by
  have h1 : ¬ s.total = 1 := by omega
  have h2 : ¬ s.total = 2 := by omega
  have h3 : ¬ s.total = 3 := by omega
  constructor
  · intro hw
    simp [getResponseE, stepDiagE, questionnaireStep, anxietyQuestionnaireStep, depressionQuestionnaireStep, ptsdQuestionnaireStep, addictionQuestionnaireStep, hd, hc, hp, h1, h2, h3, h4, hw]
  · intro hw1 hw2
    simp [getResponseE, stepDiagE, questionnaireStep, anxietyQuestionnaireStep, depressionQuestionnaireStep, ptsdQuestionnaireStep, addictionQuestionnaireStep, hd, hc, hp, h1, h2, h3, h4, hw1, hw2]

/-- Witness for C6: two environments with different classifiers agree on a
mid-questionnaire Anxiety step. -/
theorem questionnaire_deterministic_witness :
    getResponseE (pureExt (fun _ => Disorder.Anxiety) (fun _ => "x")) (fun _ => none)
      { inDiagnosis := true, inCounselor := false, total := 5, userScore := 2,
        userTextDiagnosis := "t", predictedClass := some Disorder.Anxiety } "u" "3"
    = getResponseE (pureExt (fun _ => Disorder.Depression) (fun _ => "y")) (fun _ => none)
      { inDiagnosis := true, inCounselor := false, total := 5, userScore := 2,
        userTextDiagnosis := "t", predictedClass := some Disorder.Anxiety } "u" "3" :=
  (questionnaire_deterministic (pureExt (fun _ => Disorder.Anxiety) (fun _ => "x"))
    (pureExt (fun _ => Disorder.Depression) (fun _ => "y")) (fun _ => none)
    { inDiagnosis := true, inCounselor := false, total := 5, userScore := 2,
      userTextDiagnosis := "t", predictedClass := some Disorder.Anxiety }
    "u" "3" Disorder.Anxiety rfl rfl rfl (by decide)).1 rfl

/-- A valid Likert answer at a non-final question step advances the step
counter by one, adds the answer value to the score, and performs no external
interaction. -/
theorem likert_mid_step (ext : Ext) (s : Session) (msg : String) (d : Disorder)
    (hne : d ≠ Disorder.PTSD) (hp : s.predictedClass = some d)
    (hmsg : msg ∈ likertTokens)
    (h4 : 4 ≤ s.total) (h9 : s.total ≤ 2 + (nQ d : Int)) :
    (stepDiagE ext s msg).2 =
      ({ s with userScore := s.userScore + likertVal msg, total := s.total + 1 }, []) := by
  cases d with
  | PTSD => exact absurd rfl hne
  | Anxiety =>
    simp only [nQ, Nat.cast_ofNat] at h9
    have hcase : s.total = 4 ∨ s.total = 5 ∨ s.total = 6 ∨ s.total = 7 ∨
        s.total = 8 ∨ s.total = 9 := by omega
    rcases hcase with h | h | h | h | h | h <;> simp [stepDiagE, questionnaireStep, anxietyQuestionnaireStep, depressionQuestionnaireStep, ptsdQuestionnaireStep, addictionQuestionnaireStep, hp, hmsg, h]
  | Depression =>
    simp only [nQ, Nat.cast_ofNat] at h9
    have hcase : s.total = 4 ∨ s.total = 5 ∨ s.total = 6 ∨ s.total = 7 ∨
        s.total = 8 ∨ s.total = 9 ∨ s.total = 10 ∨ s.total = 11 := by omega
    rcases hcase with h | h | h | h | h | h | h | h <;> simp [stepDiagE, questionnaireStep, anxietyQuestionnaireStep, depressionQuestionnaireStep, ptsdQuestionnaireStep, addictionQuestionnaireStep, hp, hmsg, h]
  | Addiction =>
    simp only [nQ, Nat.cast_ofNat] at h9
    have hcase : s.total = 4 ∨ s.total = 5 ∨ s.total = 6 ∨ s.total = 7 ∨
        s.total = 8 ∨ s.total = 9 ∨ s.total = 10 ∨ s.total = 11 ∨ s.total = 12 := by omega
    rcases hcase with h | h | h | h | h | h | h | h | h <;> simp [stepDiagE, questionnaireStep, anxietyQuestionnaireStep, depressionQuestionnaireStep, ptsdQuestionnaireStep, addictionQuestionnaireStep, hp, hmsg, h]

/-- A valid Likert answer at the final question step adds its value to the
score, moves the step counter to the terminal value -1, and attempts exactly
the severity write for the final score. -/
theorem likert_final_step (ext : Ext) (s : Session) (msg : String) (d : Disorder)
    (hne : d ≠ Disorder.PTSD) (hp : s.predictedClass = some d)
    (hmsg : msg ∈ likertTokens)
    (ht : s.total = 3 + (nQ d : Int)) :
    (stepDiagE ext s msg).2 =
      ({ s with userScore := s.userScore + likertVal msg, total := -1 },
       [Effect.dbSeverity (likertSeverity d (s.userScore + likertVal msg))]) := by
  cases d with
  | PTSD => exact absurd rfl hne
  | Anxiety =>
    norm_num [nQ] at ht
    simp [stepDiagE, questionnaireStep, anxietyQuestionnaireStep, depressionQuestionnaireStep, ptsdQuestionnaireStep, addictionQuestionnaireStep, likertSeverity, hp, hmsg, ht]
  | Depression =>
    norm_num [nQ] at ht
    simp [stepDiagE, questionnaireStep, anxietyQuestionnaireStep, depressionQuestionnaireStep, ptsdQuestionnaireStep, addictionQuestionnaireStep, likertSeverity, hp, hmsg, ht]
  | Addiction =>
    norm_num [nQ] at ht
    simp [stepDiagE, questionnaireStep, anxietyQuestionnaireStep, depressionQuestionnaireStep, ptsdQuestionnaireStep, addictionQuestionnaireStep, likertSeverity, hp, hmsg, ht]

/-- Invariant of a Likert questionnaire run: starting `k` answers in, a list
of valid answers that stays short of the fixed length keeps the session at
step `4 + k + length` with no severity write, and a list that reaches the
fixed length ends the run at the terminal step with exactly one severity
write. -/
theorem runDiag_likert_invariant (ext : Ext) (d : Disorder) (hne : d ≠ Disorder.PTSD)
    (answers : List String) :
    ∀ (k : Nat) (s : Session),
      (∀ a ∈ answers, a ∈ likertTokens) →
      s.predictedClass = some d → s.total = 4 + (k : Int) →
      k < nQ d → k + answers.length ≤ nQ d →
      (k + answers.length < nQ d →
        (runDiag ext s answers).1.total = 4 + (k : Int) + answers.length ∧
        ((runDiag ext s answers).2.countP Effect.isSeverityWrite) = 0) ∧
      (k + answers.length = nQ d →
        (runDiag ext s answers).1.total = -1 ∧
        ((runDiag ext s answers).2.countP Effect.isSeverityWrite) = 1) := by
  induction answers with
  | nil =>
    intro k s hv hp ht hk hlen
    constructor
    · intro _
      simp [runDiag, ht]
    · intro h
      simp at h
      omega
  | cons m ms ih =>
    intro k s hv hp ht hk hlen
    have hm : m ∈ likertTokens := hv m (by simp)
    have hms : ∀ a ∈ ms, a ∈ likertTokens := fun a ha => hv a (by simp [ha])
    simp only [List.length_cons] at hlen
    by_cases hfin : k + 1 = nQ d
    · have ht' : s.total = 3 + (nQ d : Int) := by
        rw [ht]
        omega
      have hstep := likert_final_step ext s m d hne hp hm ht'
      have hms0 : ms = [] := by
        have hlen0 : ms.length = 0 := by omega
        exact List.length_eq_zero.mp hlen0
      subst hms0
      constructor
      · intro hlt
        simp only [List.length_cons, List.length_nil] at hlt
        omega
      · intro _
        simp [runDiag, hstep, Effect.isSeverityWrite]
    · have hk' : k + 1 < nQ d := by omega
      have h9 : s.total ≤ 2 + (nQ d : Int) := by
        rw [ht]
        omega
      have hstep := likert_mid_step ext s m d hne hp hm (by omega) h9
      have ihh := ih (k + 1)
        { s with userScore := s.userScore + likertVal m, total := s.total + 1 }
        hms (by simp [hp]) (by rw [ht]; push_cast; ring) hk' (by omega)
      constructor
      · intro hlt
        simp only [List.length_cons] at hlt
        have hres := ihh.1 (by omega)
        constructor
        · simp only [runDiag, hstep]
          rw [hres.1]
          simp only [List.length_cons]
          push_cast
          ring
        · simp only [runDiag, hstep]
          simpa using hres.2
      · intro heq
        simp only [List.length_cons] at heq
        have hres := ihh.2 (by omega)
        constructor
        · simp only [runDiag, hstep]
          exact hres.1
        · simp only [runDiag, hstep]
          simpa using hres.2

/-- C3: each Likert questionnaire of the `/get` handler is a fixed-length
sequence — starting right after classification (`total = 4`, score 0 or any
score), a run of valid 0..3 answers stays inside the questionnaire while
shorter than the fixed length and produces its single severity exactly on
the final answer: 7 answers for Anxiety, 9 for Depression, 10 for
Addiction. -/
theorem questionnaire_fixed_lengths (ext : Ext) (d : Disorder) (answers : List String)
    (s : Session)
    (hne : d ≠ Disorder.PTSD)
    (hv : ∀ a ∈ answers, a ∈ likertTokens)
    (hp : s.predictedClass = some d) (ht : s.total = 4) :
    nQ Disorder.Anxiety = 7 ∧ nQ Disorder.Depression = 9 ∧ nQ Disorder.Addiction = 10 ∧
    (answers.length < nQ d →
      (runDiag ext s answers).1.total = 4 + (answers.length : Int) ∧
      ((runDiag ext s answers).2.countP Effect.isSeverityWrite) = 0) ∧
    (answers.length = nQ d →
      (runDiag ext s answers).1.total = -1 ∧
      ((runDiag ext s answers).2.countP Effect.isSeverityWrite) = 1) := by
  have hk0 : 0 < nQ d := by
    cases d with
    | PTSD => exact absurd rfl hne
    | Anxiety => decide
    | Depression => decide
    | Addiction => decide
  have ht0 : s.total = 4 + ((0 : Nat) : Int) := by simp [ht]
  refine ⟨rfl, rfl, rfl, ?_, ?_⟩
  · intro hlt
    have h := (runDiag_likert_invariant ext d hne answers 0 s hv hp ht0 hk0
      (by omega)).1 (by omega)
    simpa using h
  · intro heq
    have h := (runDiag_likert_invariant ext d hne answers 0 s hv hp ht0 hk0
      (by omega)).2 (by omega)
    simpa using h

/-- Witness for C3: a full 7-answer Anxiety run terminates with one severity
write, and its 6-answer proper prefix is still mid-questionnaire with
none. -/
theorem questionnaire_fixed_lengths_witness :
    ((runDiag (pureExt (fun _ => Disorder.Anxiety) (fun _ => ""))
      { inDiagnosis := true, inCounselor := false, total := 4, userScore := 0,
        userTextDiagnosis := "t", predictedClass := some Disorder.Anxiety }
      ["0", "1", "2", "3", "0", "1", "2"]).1.total = -1 ∧
     ((runDiag (pureExt (fun _ => Disorder.Anxiety) (fun _ => ""))
      { inDiagnosis := true, inCounselor := false, total := 4, userScore := 0,
        userTextDiagnosis := "t", predictedClass := some Disorder.Anxiety }
      ["0", "1", "2", "3", "0", "1", "2"]).2.countP Effect.isSeverityWrite) = 1) ∧
    ((runDiag (pureExt (fun _ => Disorder.Anxiety) (fun _ => ""))
      { inDiagnosis := true, inCounselor := false, total := 4, userScore := 0,
        userTextDiagnosis := "t", predictedClass := some Disorder.Anxiety }
      ["0", "1", "2", "3", "0", "1"]).1.total = 10 ∧
     ((runDiag (pureExt (fun _ => Disorder.Anxiety) (fun _ => ""))
      { inDiagnosis := true, inCounselor := false, total := 4, userScore := 0,
        userTextDiagnosis := "t", predictedClass := some Disorder.Anxiety }
      ["0", "1", "2", "3", "0", "1"]).2.countP Effect.isSeverityWrite) = 0) := by
  constructor
  · exact (questionnaire_fixed_lengths (pureExt (fun _ => Disorder.Anxiety) (fun _ => ""))
      Disorder.Anxiety ["0", "1", "2", "3", "0", "1", "2"]
      { inDiagnosis := true, inCounselor := false, total := 4, userScore := 0,
        userTextDiagnosis := "t", predictedClass := some Disorder.Anxiety }
      (fun hx => by cases hx) (by decide) rfl rfl).2.2.2.2 (by decide)
  · have h := (questionnaire_fixed_lengths (pureExt (fun _ => Disorder.Anxiety) (fun _ => ""))
      Disorder.Anxiety ["0", "1", "2", "3", "0", "1"]
      { inDiagnosis := true, inCounselor := false, total := 4, userScore := 0,
        userTextDiagnosis := "t", predictedClass := some Disorder.Anxiety }
      (fun hx => by cases hx) (by decide) rfl rfl).2.2.2.1 (by decide)
    simpa using h

/-- In the diagnosis branch the `/get` handler's outputs are those of the
diagnosis step function, with the reply passed through the exception
boundary and the store untouched. -/
theorem getResponseE_diag (ext : Ext) (store : CStore) (s : Session) (u msg : String)
    (hd : s.inDiagnosis = true) (hc : s.inCounselor = false) :
    getResponseE ext store s u msg =
      (handleReply (stepDiagE ext s msg).1, (stepDiagE ext s msg).2.1, store,
       (stepDiagE ext s msg).2.2) := by
  simp [getResponseE, hd, hc]

/-- The Anxiety questionnaire sub-branch never calls the classifier. -/
theorem anx_step_no_predict (ext : Ext) (s : Session) (msg : String) :
    ((anxietyQuestionnaireStep ext s msg).2.2.countP Effect.isPredictCall) = 0 := by
  simp only [anxietyQuestionnaireStep, apply_ite Prod.snd, apply_ite (List.countP Effect.isPredictCall)]
  simp [Effect.isPredictCall]

/-- The Depression questionnaire sub-branch never calls the classifier. -/
theorem dep_step_no_predict (ext : Ext) (s : Session) (msg : String) :
    ((depressionQuestionnaireStep ext s msg).2.2.countP Effect.isPredictCall) = 0 := by
  simp only [depressionQuestionnaireStep, apply_ite Prod.snd, apply_ite (List.countP Effect.isPredictCall)]
  simp [Effect.isPredictCall]

/-- The PTSD questionnaire sub-branch never calls the classifier. -/
theorem ptsd_step_no_predict (ext : Ext) (s : Session) (msg : String) :
    ((ptsdQuestionnaireStep ext s msg).2.2.countP Effect.isPredictCall) = 0 := by
  simp only [ptsdQuestionnaireStep, apply_ite Prod.snd, apply_ite (List.countP Effect.isPredictCall)]
  simp [Effect.isPredictCall]

/-- The Addiction questionnaire sub-branch never calls the classifier. -/
theorem add_step_no_predict (ext : Ext) (s : Session) (msg : String) :
    ((addictionQuestionnaireStep ext s msg).2.2.countP Effect.isPredictCall) = 0 := by
  simp only [addictionQuestionnaireStep, apply_ite Prod.snd, apply_ite (List.countP Effect.isPredictCall)]
  simp [Effect.isPredictCall]

/-- The whole `total >= 4` questionnaire dispatch never calls the
classifier. -/
theorem questionnaireStep_no_predict (ext : Ext) (s : Session) (msg : String) :
    ((questionnaireStep ext s msg).2.2.countP Effect.isPredictCall) = 0 := by
  rcases hpc : s.predictedClass with _ | dd
  · simp [questionnaireStep, hpc]
  · cases dd with
    | Anxiety => simpa [questionnaireStep, hpc] using anx_step_no_predict ext s msg
    | Depression => simpa [questionnaireStep, hpc] using dep_step_no_predict ext s msg
    | PTSD => simpa [questionnaireStep, hpc] using ptsd_step_no_predict ext s msg
    | Addiction => simpa [questionnaireStep, hpc] using add_step_no_predict ext s msg

/-- A diagnosis turn away from `total = 3` never calls the classifier. -/
theorem stepDiagE_no_predict (ext : Ext) (s : Session) (msg : String)
    (h3 : ¬ s.total = 3) :
    ((stepDiagE ext s msg).2.2.countP Effect.isPredictCall) = 0 := by
  by_cases h1 : s.total = 1
  · simp [stepDiagE, h1]
  · by_cases h2 : s.total = 2
    · simp [stepDiagE, h1, h2]
    · by_cases h4 : 4 ≤ s.total
      · simp only [stepDiagE, if_neg h1, if_neg h2, if_neg h3, if_pos h4]
        exact questionnaireStep_no_predict ext s msg
      · simp [stepDiagE, h1, h2, h3, h4]

/-- A diagnosis turn at `total = 3` attempts exactly one classifier call. -/
theorem stepDiagE_predict_count_at_3 (ext : Ext) (s : Session) (msg : String)
    (h3 : s.total = 3) :
    ((stepDiagE ext s msg).2.2.countP Effect.isPredictCall) = 1 := by
  cases hpr : ext.predict (s.userTextDiagnosis ++ " " ++ msg) with
  | error e => simp [stepDiagE, questionnaireStep, anxietyQuestionnaireStep, depressionQuestionnaireStep, ptsdQuestionnaireStep, addictionQuestionnaireStep, h3, hpr, Effect.isPredictCall]
  | ok dd => simp [stepDiagE, questionnaireStep, anxietyQuestionnaireStep, depressionQuestionnaireStep, ptsdQuestionnaireStep, addictionQuestionnaireStep, h3, hpr, Effect.isPredictCall]

/-- The `/get` handler attempts exactly one classifier call on a turn with
`total = 3` in the diagnosis workflow, and none on any other turn. -/
theorem predict_called_iff_step3 (ext : Ext) (store : CStore) (s : Session) (u msg : String) :
    ((getResponseE ext store s u msg).2.2.2.countP Effect.isPredictCall) =
      (if s.inDiagnosis = true ∧ s.inCounselor = false ∧ s.total = 3 then 1 else 0) := by
  by_cases hd : s.inDiagnosis = true
  · by_cases hc : s.inCounselor = false
    · rw [getResponseE_diag ext store s u msg hd hc]
      by_cases h3 : s.total = 3
      · rw [if_pos ⟨hd, hc, h3⟩]
        exact stepDiagE_predict_count_at_3 ext s msg h3
      · rw [if_neg (by tauto)]
        exact stepDiagE_no_predict ext s msg h3
    · have hc' : s.inCounselor = true := by simpa using hc
      rw [if_neg (by tauto)]
      simp [getResponseE, hd, hc']
  · have hd' : s.inDiagnosis = false := by simpa using hd
    rw [if_neg (by tauto)]
    by_cases hc : s.inCounselor = true
    · cases hco : ext.counsel msg with
      | error e => simp [getResponseE, hd', hc, hco]
      | ok ai => simp [getResponseE, hd', hc, hco, Effect.isPredictCall]
    · have hc' : s.inCounselor = false := by simpa using hc
      simp [getResponseE, hd', hc']

/-- C5 counterexample: in the run started from the `/diagnosis` page (whose
session initializes the narrative buffer to a single space, `" "`), the
classifier argument for the messages `"a"`, `"b"`, `"c"` is `" a b c"`,
which is not the three messages concatenated with single-space separators
(`"a b c"`). -/
theorem classifier_argument_not_plain_concat :
    (runDiag (pureExt (fun _ => Disorder.Anxiety) (fun _ => "")) diagnosisPageSession
        ["a", "b", "c"]).2 =
      [Effect.predictCall " a b c", Effect.dbDisorder "Anxiety"] ∧
    (" a b c" : String) ≠ "a" ++ " " ++ "b" ++ " " ++ "c" := by
  constructor
  · decide
  · decide

/-- C5 (amended): the external classifier is invoked exactly once per
diagnosis run, on the message that completes the narrative (the turn at
`total = 3`), and its argument is the accumulated narrative buffer: the
single space the `/diagnosis` page initializes the buffer with, followed by
the three user messages in order separated by single spaces. -/
theorem classifier_once_with_initial_buffer (ext : Ext) (store : CStore) (s : Session)
    (u m1 m2 m3 : String) (d : Disorder)
    (hpr : ext.predict (" " ++ m1 ++ " " ++ m2 ++ " " ++ m3) = Except.ok d) :
    (runDiag ext diagnosisPageSession [m1, m2, m3]).2 =
      [Effect.predictCall (" " ++ m1 ++ " " ++ m2 ++ " " ++ m3),
       Effect.dbDisorder (disorderName d)] ∧
    (runDiag ext diagnosisPageSession [m1, m2, m3]).1 =
      { inDiagnosis := true, inCounselor := false, total := 4, userScore := 0,
        userTextDiagnosis := " " ++ m1 ++ " " ++ m2 ++ " " ++ m3,
        predictedClass := some d } ∧
    ((getResponseE ext store s u m1).2.2.2.countP Effect.isPredictCall) =
      (if s.inDiagnosis = true ∧ s.inCounselor = false ∧ s.total = 3 then 1 else 0) := by
  refine ⟨?_, ?_, predict_called_iff_step3 ext store s u m1⟩
  · simp [runDiag, stepDiagE, questionnaireStep, anxietyQuestionnaireStep, depressionQuestionnaireStep, ptsdQuestionnaireStep, addictionQuestionnaireStep, diagnosisPageSession, hpr]
  · simp [runDiag, stepDiagE, questionnaireStep, anxietyQuestionnaireStep, depressionQuestionnaireStep, ptsdQuestionnaireStep, addictionQuestionnaireStep, diagnosisPageSession, hpr]

/-- Witness for C5 (amended) on the concrete messages x, y, z. -/
theorem classifier_once_with_initial_buffer_witness :
    (runDiag (pureExt (fun _ => Disorder.Depression) (fun _ => "")) diagnosisPageSession
        ["x", "y", "z"]).2 =
      [Effect.predictCall " x y z", Effect.dbDisorder "Depression"] := by
  have h := classifier_once_with_initial_buffer
    (pureExt (fun _ => Disorder.Depression) (fun _ => ""))
    (fun _ => none) initSession "u" "x" "y" "z" Disorder.Depression rfl
  rw [h.1]
  decide

/-- Whether `p` is a prefix of `s`, at the character level. -/
def strIsPrefix (p s : String) : Bool := p.data.isPrefixOf s.data

/-- C7 counterexample: on a `/get` counseling turn with the LangChain store
holding the session (which a successful counseling call always ensures), the
handler overwrites the stored history with the joined store transcript.
With prior database history `"old"`, user message `"hi"`, and AI answer
`"hello"`, the value written is `"hi | hello"`: the previous history is not
a prefix of it, and it is not the previous history followed by the
`User: ... | AI: ...` entry. -/
theorem counseling_history_not_appended_cex :
    (getResponseE
        { predict := fun _ => Except.ok Disorder.Anxiety
          counsel := fun _ => Except.ok "hello"
          dbWrite := fun _ => Except.ok ()
          dbReadHistory := Except.ok (some "old") }
        (fun _ => none) counselPageSession "guest" "hi").2.2.2 =
      [Effect.dbHistory "hi | hello"] ∧
    strIsPrefix "old" "hi | hello" = false ∧
    ("hi | hello" : String) ≠ "old" ++ " | " ++ counselEntry "hi" "hello" := by
  refine ⟨by decide, by decide, by decide⟩

/-- C7 (amended): on a `/counsel/chat` turn the stored history is genuinely
appended — the new value is the previous value (kept as a prefix), followed
by a `" | "` separator when nonempty and the `User: ... | AI: ...` entry.
On a `/get` counseling turn, however, the stored history is replaced by the
LangChain store transcript joined with `" | "` (the raw message contents,
without `User:`/`AI:` labels), which preserves the previous database value
only when that value was itself the prior joined transcript. -/
theorem counseling_history_update_semantics (ext : Ext) (store : CStore) (s : Session)
    (u input sid ai : String) (row : Option String)
    (hai : ext.counsel input = Except.ok ai)
    (hrow : ext.dbReadHistory = Except.ok row)
    (hdb : ∀ w, ext.dbWrite w = Except.ok ())
    (hd : s.inDiagnosis = false) (hc : s.inCounselor = true) :
    (counsel_chat ext store input sid).1 = Except.ok ai ∧
    (counsel_chat ext store input sid).2.2 =
      [Effect.dbHistory (if row.getD "" ≠ "" then
        row.getD "" ++ " | " ++ counselEntry input ai else counselEntry input ai)] ∧
    strIsPrefix (row.getD "")
      (if row.getD "" ≠ "" then row.getD "" ++ " | " ++ counselEntry input ai
        else counselEntry input ai) = true ∧
    (getResponseE ext store s u input).2.2.2 =
      [Effect.dbHistory (String.intercalate " | "
        ((store ("counsel_" ++ u)).getD [] ++ [input, ai]))] := by
  refine ⟨?_, ?_, ?_, ?_⟩
  · simp [counsel_chat, hai, hrow, hdb]
  · simp [counsel_chat, hai, hrow, hdb]
  · by_cases hcur : row.getD "" = ""
    · simp [hcur, strIsPrefix]
    · rw [if_pos hcur]
      simp [strIsPrefix, List.isPrefixOf_iff_prefix]
  · simp [getResponseE, hd, hc, hai, hdb]

/-- Witness for C7 (amended) on a concrete counseling turn with prior
history "prev". -/
theorem counseling_history_update_semantics_witness :
    (counsel_chat
        { predict := fun _ => Except.ok Disorder.Anxiety
          counsel := fun _ => Except.ok "resp"
          dbWrite := fun _ => Except.ok ()
          dbReadHistory := Except.ok (some "prev") }
        (fun _ => none) "q" "sid").2.2 =
      [Effect.dbHistory "prev | User: q | AI: resp"] ∧
    strIsPrefix "prev" "prev | User: q | AI: resp" = true := by
  have h := counseling_history_update_semantics
    { predict := fun _ => Except.ok Disorder.Anxiety
      counsel := fun _ => Except.ok "resp"
      dbWrite := fun _ => Except.ok ()
      dbReadHistory := Except.ok (some "prev") }
    (fun _ => none) counselPageSession "guest" "q" "sid" "resp" (some "prev")
    rfl rfl (fun _ => rfl) rfl rfl
  constructor
  · rw [h.2.1]
    decide
  · decide

/-- C8: when the ML call or the database write raises, the `/get` handler
returns its fixed generic failure message — at the classification turn
(`total = 3`, classifier raises), at a completing questionnaire turn
(`total = 10` Anxiety, severity write raises), and on a counseling turn
(counseling chain raises); the `/counsel/chat` handler converts any raised
exception to the generic 500 `Internal server error`.  In every case the
reply is a fixed literal, independent of the exception payload `e`. -/
theorem exceptions_become_generic_failure (e : String) (store : CStore) (s : Session)
    (u msg sid : String) :
    (s.inDiagnosis = true → s.inCounselor = false → s.total = 3 →
      (getResponseE (extFail e) store s u msg).1 = troubleMsg) ∧
    (s.inDiagnosis = true → s.inCounselor = false → s.total = 10 →
      s.predictedClass = some Disorder.Anxiety → msg ∈ likertTokens →
      (getResponseE (extFail e) store s u msg).1 = troubleMsg) ∧
    (s.inDiagnosis = false → s.inCounselor = true →
      (getResponseE (extFail e) store s u msg).1 = troubleMsg) ∧
    (counsel_chat (extFail e) store msg sid).1 = Except.error "Internal server error" := by
  refine ⟨?_, ?_, ?_, ?_⟩
  · intro hd hc h3
    simp [getResponseE, stepDiagE, extFail, handleReply, hd, hc, h3]
  · intro hd hc ht hp hm
    simp [getResponseE, stepDiagE, questionnaireStep, anxietyQuestionnaireStep, extFail,
      handleReply, Except.map, hd, hc, ht, hp, hm]
  · intro hd hc
    simp [getResponseE, extFail, handleReply, hd, hc]
  · simp [counsel_chat, extFail]

/-- Witness for C8: a failing classifier at the classification turn yields
the generic failure message, and a failing counseling chain yields the
generic 500. -/
theorem exceptions_become_generic_failure_witness :
    (getResponseE (extFail "boom") (fun _ => none)
      { inDiagnosis := true, inCounselor := false, total := 3, userScore := 0,
        userTextDiagnosis := "t", predictedClass := none } "u" "m").1 = troubleMsg ∧
    (counsel_chat (extFail "boom") (fun _ => none) "m" "sid").1 =
      Except.error "Internal server error" := by
  have h := exceptions_become_generic_failure "boom" (fun _ => none)
    { inDiagnosis := true, inCounselor := false, total := 3, userScore := 0,
      userTextDiagnosis := "t", predictedClass := none } "u" "m" "sid"
  exact ⟨h.1 rfl rfl rfl, h.2.2.2⟩

/-- A request whose cookie failure is an `HTTPException` proceeds with the
fixed username "guest". -/
theorem currentUsernameOr_guest (decode : String → DecodeOutcome) (cookie : Option String)
    (d : String)
    (h : get_current_user decode cookie = Except.error (AuthFailure.http d)) :
    currentUsernameOr decode cookie = Except.ok "guest" := by
  unfold currentUsernameOr
  rw [h]

/-- C10 counterexample: a cookie holding valid JSON that is not an object —
such as `session=null` — carries no valid session, yet the request does not
proceed as "guest": `session_data.get("username")` raises an uncaught
`AttributeError`, so the `/get` request fails with a server error instead of
reaching the handler body. -/
theorem nonobject_cookie_rejected_cex :
    get_current_user (fun _ => DecodeOutcome.notAnObject) (some "null") =
      Except.error (AuthFailure.uncaught "AttributeError") ∧
    getHandler (pureExt (fun _ => Disorder.Anxiety) (fun _ => ""))
        (fun _ => DecodeOutcome.notAnObject) (some "null")
        (fun _ => none) (fun _ => none) "m" =
      Except.error "AttributeError" :=
  ⟨rfl, rfl⟩

/-- C10 (amended): a chat request whose session-cookie failure is an
`HTTPException(401)` — no cookie, a cookie whose JSON fails to decode, or a
decoded object with a missing or falsy username — is not rejected: the
handler resolves the username to the literal "guest" and proceeds exactly as
the guest user, so any two such unauthenticated requests read and mutate the
one session stored under the key "guest".  A cookie holding valid JSON that
is not an object instead raises an uncaught `AttributeError` and the request
fails, never reaching the guest path. -/
theorem http401_requests_share_guest (ext : Ext) (decode : String → DecodeOutcome)
    (cookie : Option String) (sessions : String → Option Session) (store : CStore)
    (msg : String) (d : String)
    (h : get_current_user decode cookie = Except.error (AuthFailure.http d)) :
    currentUsernameOr decode cookie = Except.ok "guest" ∧
    getHandler ext decode cookie sessions store msg =
      Except.ok (getHandlerUser ext "guest" sessions store msg) ∧
    (∀ (decode2 : String → DecodeOutcome) (cookie2 : Option String) (d2 : String),
      get_current_user decode2 cookie2 = Except.error (AuthFailure.http d2) →
      getHandler ext decode2 cookie2 sessions store msg =
        getHandler ext decode cookie sessions store msg) ∧
    (∀ (decode3 : String → DecodeOutcome) (cookie3 : Option String) (e : String),
      get_current_user decode3 cookie3 = Except.error (AuthFailure.uncaught e) →
      getHandler ext decode3 cookie3 sessions store msg = Except.error e) := by
  have hg := currentUsernameOr_guest decode cookie d h
  refine ⟨hg, ?_, ?_, ?_⟩
  · unfold getHandler
    rw [hg]
  · intro decode2 cookie2 d2 h2
    have hg2 := currentUsernameOr_guest decode2 cookie2 d2 h2
    unfold getHandler
    rw [hg, hg2]
  · intro decode3 cookie3 e h3
    unfold getHandler currentUsernameOr
    rw [h3]

/-- Witness for C10 (amended): a cookie that fails JSON decoding is handled
as "guest". -/
theorem http401_requests_share_guest_witness :
    currentUsernameOr (fun _ => DecodeOutcome.jsonError) (some "junk") = Except.ok "guest" ∧
    getHandler (pureExt (fun _ => Disorder.Anxiety) (fun _ => ""))
        (fun _ => DecodeOutcome.jsonError) (some "junk")
        (fun _ => none) (fun _ => none) "m" =
      Except.ok (getHandlerUser (pureExt (fun _ => Disorder.Anxiety) (fun _ => ""))
        "guest" (fun _ => none) (fun _ => none) "m") := by
  have h := http401_requests_share_guest
    (pureExt (fun _ => Disorder.Anxiety) (fun _ => ""))
    (fun _ => DecodeOutcome.jsonError) (some "junk")
    (fun _ => none) (fun _ => none) "m" "Invalid session" rfl
  exact ⟨h.1, h.2.1⟩

end MindAid
